import Mathlib

/-!
Shallow embedding of the CareBot chatbot-service message pipeline
(repository `Healer-H/carebot-backend`) together with proofs about it.

Python strings are modelled as lists of Unicode code points (`List Char`),
Python floats appearing only as compared/forwarded scores are modelled as
rationals, and every fallible piece of code is modelled with `Except`/`Option`.
External collaborators (the LLM provider, the embedding model, the vector
database) are modelled as oracle parameters; everything that is code of the
repository is translated statement by statement from the source files.
-/

namespace Carebot

/-- Python strings, modelled as lists of Unicode code points. -/
abbrev PyStr := List Char

/-- A Python runtime error that escapes a function. -/
inductive PyError where
  /-- Embeds `NameError` / `UnboundLocalError`: the given identifier is not bound. -/
  | nameError (ident : String) : PyError
deriving Repr, DecidableEq

/-- Python `str.lower()`.  `Char.toLower` lower-cases the ASCII range; every
non-ASCII character appearing in the repository's keyword tables is already
lower case and is a fixed point of `lower()`. -/
def pyLower (s : PyStr) : PyStr := s.map Char.toLower

/-- Python `needle in hay` substring test. -/
def pyContains : PyStr → PyStr → Bool
  | [], needle => needle.isEmpty
  | c :: t, needle => needle.isPrefixOf (c :: t) || pyContains t needle

/-- Python `str.strip()` (whitespace on both ends). -/
def pyStrip (s : PyStr) : PyStr :=
  ((s.dropWhile Char.isWhitespace).reverse.dropWhile Char.isWhitespace).reverse

/-! ## `core/safety_guardrails.py` — `SafetyGuardrails` -/

/-- The `(is_safe, risk_level, reason)` triple returned by the safety checks. -/
structure SafetyVerdict where
  isSafe : Bool
  riskLevel : Int
  reason : PyStr
deriving Repr, DecidableEq

/-- Embeds `SafetyGuardrails.high_risk_keywords`, in source order. -/
def highRiskKeywords : List PyStr :=
  ["tự tử", "giết", "đau khổ", "thuốc bất hợp pháp", "ma túy", "vũ khí",
   "bom", "tấn công", "nguy hiểm", "cách chế tạo"].map String.data

/-- Embeds `SafetyGuardrails.medical_keywords`. -/
def medicalKeywords : List PyStr :=
  ["điều trị", "thuốc", "liều lượng", "tác dụng phụ", "bệnh", "triệu chứng",
   "chẩn đoán", "nguyên nhân", "phòng ngừa"].map String.data

/-- All literal strings matched by the input-safety regex
`(làm thế nào|cách) (để|tạo ra|chế tạo|sản xuất) (vũ khí|bom|chất độc|thuốc)`.
For a regex that is an alternation of literals, `re.search` succeeds exactly
when one of the concatenated literal combinations occurs as a substring. -/
def inputDangerousPhrases : List PyStr :=
  (["làm thế nào", "cách"].map String.data).flatMap (fun a =>
    (["để", "tạo ra", "chế tạo", "sản xuất"].map String.data).flatMap (fun b =>
      (["vũ khí", "bom", "chất độc", "thuốc"].map String.data).map (fun c =>
        a ++ " ".data ++ b ++ " ".data ++ c)))

/-- Embeds `SafetyGuardrails.check_input_safety`.  The keyword loop runs first and
returns on the first keyword contained in the lower-cased content; only when
no high-risk keyword occurs are the length cap and the dangerous-request
regex consulted. -/
def checkInputSafety (maxRiskLevel : Int) (messageContent : PyStr) : SafetyVerdict :=
  let content := pyLower messageContent
  match highRiskKeywords.find? (fun kw => pyContains content kw) with
  | some kw =>
      if 4 > maxRiskLevel then
        ⟨false, 4, "Nội dung chứa từ khóa có rủi ro cao: ".data ++ kw⟩
      else
        ⟨true, 4, []⟩
  | none =>
      if content.length > 2000 then
        ⟨false, 2, "Nội dung vượt quá độ dài cho phép".data⟩
      else if inputDangerousPhrases.any (fun p => pyContains content p) then
        ⟨false, 5, "Yêu cầu không phù hợp về cách tạo ra vật nguy hiểm".data⟩
      else
        ⟨true, 1, []⟩

/-- Literal combinations of the output-safety regex
`(cách|hướng dẫn|bước) (tạo ra|chế tạo|sản xuất) (vũ khí|bom|chất độc|thuốc)`. -/
def outputDangerousPhrases : List PyStr :=
  (["cách", "hướng dẫn", "bước"].map String.data).flatMap (fun a =>
    (["tạo ra", "chế tạo", "sản xuất"].map String.data).flatMap (fun b =>
      (["vũ khí", "bom", "chất độc", "thuốc"].map String.data).map (fun c =>
        a ++ " ".data ++ b ++ " ".data ++ c)))

/-- Literal combinations of the stop-treatment regex
`(nên|hãy) (dừng|ngừng|bỏ) (điều trị|thuốc|liệu pháp)`. -/
def stopTreatmentPhrases : List PyStr :=
  (["nên", "hãy"].map String.data).flatMap (fun a =>
    (["dừng", "ngừng", "bỏ"].map String.data).flatMap (fun b =>
      (["điều trị", "thuốc", "liệu pháp"].map String.data).map (fun c =>
        a ++ " ".data ++ b ++ " ".data ++ c)))

/-- Embeds `SafetyGuardrails.check_output_safety`. -/
def checkOutputSafety (content : PyStr) : SafetyVerdict :=
  let cl := pyLower content
  if outputDangerousPhrases.any (fun p => pyContains cl p) then
    ⟨false, 5, "Phản hồi chứa hướng dẫn tạo vật nguy hiểm".data⟩
  else if pyContains cl "tôi đảm bảo".data && medicalKeywords.any (fun kw => pyContains cl kw) then
    ⟨false, 4, "Phản hồi đưa ra đảm bảo y tế không phù hợp".data⟩
  else if stopTreatmentPhrases.any (fun p => pyContains cl p) then
    ⟨false, 4, "Phản hồi khuyên dừng điều trị y tế".data⟩
  else
    ⟨true, 1, []⟩

/-- Embeds `settings.DISCLAIMER_TEMPLATE` (default value from `config.py`). -/
def disclaimerTemplate : PyStr :=
  "Lưu ý: Thông tin được cung cấp chỉ mang tính chất tham khảo và không thay thế cho tư vấn y tế chuyên nghiệp.".data

/-- Embeds `SafetyGuardrails.add_medical_disclaimer`. -/
def addMedicalDisclaimer (content : PyStr) (riskLevel : Int) : PyStr :=
  let isMedicalContent := medicalKeywords.any (fun kw => pyContains (pyLower content) kw)
  if isMedicalContent || riskLevel > 1 then
    let padded :=
      if content.getLast? = some '\n' then content ++ "\n".data
      else content ++ "\n\n".data
    padded ++ disclaimerTemplate
  else
    content

/-! ## `core/emergency_detector.py` — `EmergencyDetector` -/

/-- Embeds `EmergencyDetector.emergency_keywords`, categories in source (insertion)
order. -/
def emergencyKeywords : List (PyStr × List PyStr) :=
  [("cardiac".data,
     ["đau tim", "nhồi máu cơ tim", "đau thắt ngực", "khó thở dữ dội",
      "đau ngực dữ dội", "tức ngực"].map String.data),
   ("stroke".data,
     ["đột quỵ", "tê liệt nửa người", "méo miệng", "nói ngọng", "đột ngột",
      "nhìn mờ"].map String.data),
   ("bleeding".data,
     ["chảy máu dữ dội", "chảy máu không ngừng", "chảy máu nhiều",
      "mất máu"].map String.data),
   ("shock".data,
     ["sốc phản vệ", "khó thở cấp", "ngứa toàn thân", "nổi mề đay đột ngột",
      "phù nề"].map String.data),
   ("suicide".data,
     ["tự tử", "muốn chết", "không muốn sống", "kết thúc cuộc đời",
      "kết liễu"].map String.data)]

/-- Literal combinations of `EmergencyDetector.emergency_patterns` (each
pattern is an alternation of literals, so `re.search` reduces to substring
membership of one of the combinations). -/
def emergencyPatternPhrases : List PyStr :=
  ((["khó thở", "ngạt thở"].map String.data).flatMap (fun a =>
    (["dữ dội", "nghiêm trọng", "không thở được"].map String.data).map (fun b =>
      a ++ " ".data ++ b)))
  ++ ((["đau", "tức"].map String.data).flatMap (fun a =>
    (["dữ dội", "không chịu nổi", "quá mức"].map String.data).map (fun b =>
      a ++ " ngực ".data ++ b)))
  ++ (["bất tỉnh", "ngất xỉu", "hôn mê"].map String.data)
  ++ ((["chảy máu", "xuất huyết"].map String.data).flatMap (fun a =>
    (["nhiều", "nghiêm trọng", "không ngừng"].map String.data).map (fun b =>
      a ++ " ".data ++ b)))
  ++ (["gãy xương hở", "chấn thương đầu nặng", "ngã từ trên cao"].map String.data)

/-- Embeds `EmergencyDetector.detect_emergency`: keyword categories first (first
matching category wins), then the regex patterns, then the combined
heuristic; short-circuits on the first match. -/
def detectEmergency (content : PyStr) : Bool × PyStr :=
  let cl := pyLower content
  match emergencyKeywords.find? (fun cat => cat.2.any (fun kw => pyContains cl kw)) with
  | some cat => (true, cat.1)
  | none =>
      if emergencyPatternPhrases.any (fun p => pyContains cl p) then
        (true, "general_emergency".data)
      else if (pyContains cl "đau".data && pyContains cl "dữ dội".data)
           || pyContains cl "cấp cứu".data
           || (pyContains cl "gấp".data && pyContains cl "ngay".data) then
        (true, "general_emergency".data)
      else
        (false, [])

/-! ## `core/source_citation.py` — `SourceCitationService` -/

/-- Embeds `models/source.py` `Source`.  `publication_date` is used by the code only
through its `.year`, so the date is modelled by its year. -/
structure Source where
  title : PyStr
  url : Option PyStr
  description : Option PyStr
  publicationYear : Option Int
deriving Repr, DecidableEq

/-- One element of the `retrieved_docs` list produced by vector search.  The
open `metadata` map is modelled by the four fields the code reads from it
(`metadata.get` of a missing key gives `none`); `score` carries the value of
`doc.get('score', 0)`, i.e. the default `0` stands in for a missing score. -/
structure RetrievedDoc where
  content : PyStr
  title : Option PyStr
  url : Option PyStr
  description : Option PyStr
  publicationYear : Option Int
  score : ℚ
deriving Repr, DecidableEq

/-- Python `text.rsplit(' ', 1)[0]`: everything before the last space, or the
whole string when it contains no space. -/
def beforeLastSpace (s : PyStr) : PyStr :=
  if s.contains ' ' then ((s.reverse.dropWhile (fun c => c ≠ ' ')).drop 1).reverse
  else s

/-- Embeds `SourceCitationService._create_snippet`. -/
def createSnippet (text : PyStr) (maxLength : Nat) : PyStr :=
  if text.length ≤ maxLength then text
  else beforeLastSpace (text.take maxLength) ++ "...".data

/-- Embeds `SourceCitationService._is_duplicate_source`: a doc is a duplicate when
some already-collected source has the doc's metadata title (a string compared
against the possibly-missing metadata value) or the doc's metadata url
(`None == None` holds in Python, hence `Option` equality). -/
def isDuplicateSource (sources : List Source) (mtitle murl : Option PyStr) : Bool :=
  sources.any (fun s => decide (some s.title = mtitle) || decide (s.url = murl))

/-- The default title `'Tài liệu y tế'` filled in for docs without one. -/
def defaultSourceTitle : PyStr := "Tài liệu y tế".data

/-- The loop body of `SourceCitationService.extract_sources`: skip a doc that
duplicates an already-collected source, otherwise append the `Source` built
from its metadata (title defaulted, description defaulted to a content
snippet). -/
def sourceStep (sources : List Source) (d : RetrievedDoc) : List Source :=
  if isDuplicateSource sources d.title d.url then sources
  else sources ++ [{ title := d.title.getD defaultSourceTitle
                     url := d.url
                     description := some (d.description.getD (createSnippet d.content 100))
                     publicationYear := d.publicationYear }]

/-- Embeds `SourceCitationService.extract_sources`: keep docs with score above 0.7,
fold over them skipping duplicates, then cap the result at 5.  The `content`
argument of the Python method is unused by its body. -/
def extractSources (_content : PyStr) (retrievedDocs : List RetrievedDoc) : List Source :=
  let relevant := retrievedDocs.filter (fun d => d.score > mkRat 7 10)
  (relevant.foldl sourceStep []).take 5

/-- One numbered line of `SourceCitationService.format_citation`
(`enumerate(sources, 1)`).  Python tests `if source.publication_date:` and
`if source.url:`, so a present-but-empty url string is skipped. -/
def citationLine (i : Nat) (s : Source) : PyStr :=
  (toString i).data ++ ". ".data ++ s.title
  ++ (match s.publicationYear with
      | some y => " (".data ++ (toString y).data ++ ")".data
      | none => [])
  ++ (match s.url with
      | some u => if u.isEmpty then [] else " - ".data ++ u
      | none => [])
  ++ "\n".data

/-- Embeds `SourceCitationService.format_citation`. -/
def formatCitation (sources : List Source) : PyStr :=
  if sources.isEmpty then []
  else
    "\n\nNguồn tham khảo:\n".data
    ++ (sources.enum.map (fun p => citationLine (p.1 + 1) p.2)).flatten

/-! ## `core/response_formatter.py` — `ResponseFormatter` -/

/-- Embeds `ResponseFormatter._remove_numeric_references` evaluates
`re.sub(..., content)`, but `response_formatter.py` imports only `typing`,
`logging`, `fastapi` and two project modules — never `re` — so the lookup of
the name `re` raises `NameError` before any substitution happens, on every
input. -/
def removeNumericReferences (_content : PyStr) : Except PyError PyStr :=
  .error (.nameError "re")

/-- Embeds `ResponseFormatter.format_response`: strip the numeric reference markers,
then append the citation block when the source list is non-empty. -/
def formatResponse (content : PyStr) (sources : List Source) : Except PyError PyStr := do
  let cleanContent ← removeNumericReferences content
  if sources.isEmpty then
    return cleanContent
  else
    return cleanContent ++ formatCitation sources

/-! ## `core/intent_classification.py` — `IntentClassifier` -/

/-- Embeds `models/intent.py` `IntentType`. -/
inductive IntentType where
  | medicalQuery
  | locationSearch
  | streakChallenge
  | emergency
  | generalChat
  | unsafeContent
deriving Repr, DecidableEq

/-- The wire value of each `IntentType`. -/
def IntentType.value : IntentType → PyStr
  | .medicalQuery => "medical_query".data
  | .locationSearch => "location_search".data
  | .streakChallenge => "streak_challenge".data
  | .emergency => "emergency".data
  | .generalChat => "general_chat".data
  | .unsafeContent => "unsafe_content".data

/-- One entry of `Intent.secondary_intents`. -/
structure SecondaryIntent where
  intent : IntentType
  confidence : ℚ
deriving Repr, DecidableEq

/-- Embeds `models/intent.py` `Intent`.  Confidences are Python floats used only as
parsed-and-forwarded values and comparison operands, modelled as rationals;
`entities` is the JSON object as an association list. -/
structure Intent where
  primaryIntent : IntentType
  confidence : ℚ
  secondaryIntents : List SecondaryIntent
  entities : List (PyStr × List PyStr)
deriving Repr, DecidableEq

/-- Embeds `models/intent.py` `IntentClassificationResponse` (the `action` field is
never set by the classifier). -/
structure IntentClassificationResponse where
  intent : Intent
  redirectService : Option PyStr
  confidenceThresholdMet : Bool
deriving Repr, DecidableEq

/-- Embeds `IntentClassifier._normalize_intent`'s `intent_mapping`, in insertion
order. -/
def intentMapping : List (PyStr × IntentType) :=
  [("medical_query".data, .medicalQuery), ("medical".data, .medicalQuery),
   ("medicine".data, .medicalQuery), ("health".data, .medicalQuery),
   ("location_search".data, .locationSearch), ("location".data, .locationSearch),
   ("find".data, .locationSearch), ("nearby".data, .locationSearch),
   ("streak_challenge".data, .streakChallenge), ("streak".data, .streakChallenge),
   ("challenge".data, .streakChallenge), ("goal".data, .streakChallenge),
   ("emergency".data, .emergency), ("urgent".data, .emergency),
   ("help".data, .emergency),
   ("general_chat".data, .generalChat), ("chat".data, .generalChat),
   ("general".data, .generalChat), ("greeting".data, .generalChat)]

/-- Embeds `IntentClassifier._normalize_intent`: exact dictionary lookup first, then
the first key contained in the raw token, defaulting to `general_chat`. -/
def normalizeIntent (rawIntent : PyStr) : IntentType :=
  match intentMapping.find? (fun p => decide (p.1 = rawIntent)) with
  | some p => p.2
  | none =>
      match intentMapping.find? (fun p => pyContains rawIntent p.1) with
      | some p => p.2
      | none => .generalChat

/-- Embeds `IntentClassifier._get_redirect_service`: the static intent→service map
(`unsafe_content` maps to `None`, as does a missing key). -/
def redirectService : IntentType → Option PyStr
  | .medicalQuery => some "chatbot".data
  | .locationSearch => some "location".data
  | .streakChallenge => some "streak".data
  | .emergency => some "emergency".data
  | .generalChat => some "chatbot".data
  | .unsafeContent => none

/-- Oracle outcomes of the backend LLM sub-calls of one
`IntentClassifier.classify` run.  `primaryReply` is the raw token returned by
the primary-classification completion (when that call raises there is no
fallback and `classify` is fatal, so the environment describes the returning
runs); `entitiesResult` is the JSON object parsed from the entity-extraction
completion, `none` when that call raised or `json.loads` failed;
`confidenceResult` is the value `float(reply.strip())` computed from the
confidence completion, `none` when the call or the parse raised (Python
`float()` is modelled by its abstract outcome); `secondaryOutcome` is the
`(token, parsed confidence)` pair from the secondary-intent completion,
`none` when the call raised, the comma-split did not give two parts, or the
float parse raised. -/
structure IntentEnv where
  primaryReply : PyStr
  entitiesResult : Option (List (PyStr × List PyStr))
  confidenceResult : Option ℚ
  secondaryOutcome : Option (PyStr × ℚ)

/-- An observable effect of the pipeline: one LLM completion request, one
vector-database search, or one tool execution. -/
inductive Ev where
  | llm (tag : String)
  | vectorSearch
  | toolExec (id : String)
deriving Repr, DecidableEq

/-- Embeds `IntentClassifier._extract_entities`: only the `medical_query` and
`location_search` branches issue an LLM call; a parse failure degrades to the
empty object; every other intent returns the empty object without any call. -/
def extractEntities (env : IntentEnv) (intentType : IntentType) :
    List (PyStr × List PyStr) × List Ev :=
  match intentType with
  | .medicalQuery => (env.entitiesResult.getD [], [Ev.llm "intent_entities"])
  | .locationSearch => (env.entitiesResult.getD [], [Ev.llm "intent_entities"])
  | _ => ([], [])

/-- Embeds `IntentClassifier._get_confidence_score`: the parsed float is returned
unchanged; only an exception (in the call or in `float`) yields the fixed
default `0.7`. -/
def getConfidenceScore (env : IntentEnv) : ℚ × List Ev :=
  (env.confidenceResult.getD (mkRat 7 10), [Ev.llm "intent_confidence"])

/-- Embeds `IntentClassifier._get_secondary_intent`: on a two-part reply the first
part is stripped and normalised and the second is the parsed confidence;
every failure path yields `(None, 0.0)`. -/
def getSecondaryIntent (env : IntentEnv) : (Option IntentType × ℚ) × List Ev :=
  (match env.secondaryOutcome with
   | some (s, c) => (some (normalizeIntent (pyStrip s)), c)
   | none => (none, 0),
   [Ev.llm "intent_secondary"])

/-- Embeds `IntentClassifier.classify`: primary classification, entity extraction,
confidence scoring, and — only when confidence < 0.9 — secondary-intent
detection, assembled into an `IntentClassificationResponse`
(`confidence_threshold_met` compares against the fixed threshold 0.7). -/
def classify (env : IntentEnv) (_message : PyStr) :
    IntentClassificationResponse × List Ev :=
  let intentType := normalizeIntent (pyLower (pyStrip env.primaryReply))
  let (entities, entEv) := extractEntities env intentType
  let (confidence, confEv) := getConfidenceScore env
  let (secondaries, secEv) :=
    if confidence < mkRat 9 10 then
      match getSecondaryIntent env with
      | ((some si, sc), ev) => (if sc > mkRat 3 10 then [⟨si, sc⟩] else [], ev)
      | ((none, _), ev) => ([], ev)
    else ([], [])
  let intent : Intent :=
    { primaryIntent := intentType, confidence := confidence
      secondaryIntents := secondaries, entities := entities }
  ({ intent := intent
     redirectService := redirectService intentType
     confidenceThresholdMet := confidence ≥ mkRat 7 10 },
   [Ev.llm "intent_primary"] ++ entEv ++ confEv ++ secEv)

/-! ## `utils/context_builder.py` — `ContextBuilder` -/

/-- One entry of the conversation history (`models/chat_message.py`
`ChatMessage`), reduced to the two fields `build_prompt` reads. -/
structure ChatMsg where
  isBot : Bool
  content : PyStr
deriving Repr, DecidableEq

/-- Embeds `ContextBuilder.system_prompt` (a triple-quoted literal; the embedded
indentation of the source lines is part of the string). -/
def systemPrompt : PyStr :=
  ("Bạn là trợ lý y tế CareBot. Cung cấp thông tin y tế chính xác, đáng tin cậy và dễ hiểu. \n"
   ++ "        Luôn trả lời dựa trên nguồn đáng tin cậy. Nếu không có thông tin, hãy nói rõ là bạn không biết.\n"
   ++ "        Không đưa ra chẩn đoán y tế. Nhắc người dùng tham khảo ý kiến bác sĩ khi cần.\n"
   ++ "        Luôn trích dẫn nguồn thông tin của bạn. Thông tin phải ngắn gọn, súc tích nhưng đầy đủ.").data

/-- One referenced-document line of `ContextBuilder.build_prompt`
(`enumerate(retrieved_docs, 1)`, content truncated to 1000 characters). -/
def promptDocLine (i : Nat) (d : RetrievedDoc) : PyStr :=
  "[".data ++ (toString i).data ++ "] ".data ++ d.content.take 1000 ++ " (Nguồn: ".data
  ++ d.title.getD "Không rõ nguồn".data ++ ")".data ++ "\n\n".data

/-- One history line of `ContextBuilder.build_prompt`. -/
def promptHistoryLine (m : ChatMsg) : PyStr :=
  (if m.isBot then "Bot".data else "Người dùng".data) ++ ": ".data ++ m.content ++ "\n".data

/-- Embeds `ContextBuilder.build_prompt`: system prompt, retrieved-document block,
last three history messages, the user query, and the fixed closing
instructions. -/
def buildPrompt (query : PyStr) (retrievedDocs : List RetrievedDoc)
    (conversationHistory : Option (List ChatMsg)) : PyStr :=
  systemPrompt ++ "\n\n".data
  ++ (if retrievedDocs.isEmpty then []
      else "Thông tin tham khảo:\n".data
           ++ (retrievedDocs.enum.map (fun p => promptDocLine (p.1 + 1) p.2)).flatten)
  ++ (match conversationHistory with
      | some h =>
          if h.isEmpty then []
          else "Lịch sử trò chuyện gần đây:\n".data
               ++ ((h.drop (h.length - 3)).map promptHistoryLine).flatten ++ "\n".data
      | none => [])
  ++ "Người dùng hiện tại: ".data ++ query ++ "\n\n".data
  ++ ("Phản hồi của bạn phải chính xác, rõ ràng và đáng tin cậy. "
      ++ "Nếu thông tin không đầy đủ, hãy thừa nhận giới hạn và tránh suy đoán. "
      ++ "Phản hồi nên được định dạng rõ ràng, dễ đọc với đoạn văn ngắn gọn và mạch lạc.").data

/-! ## `core/message_service.py` — `MessageService` -/

/-- The `intent` dictionary echoed into a `MessageResponse`: either the full
`intent_result.dict()` of the classifier, or one of the two-key literal
dictionaries built by the safety and emergency responses (whose `secondary_intents`
and `entities` keys are absent, hence `none`). -/
structure IntentDict where
  primaryIntent : PyStr
  confidence : ℚ
  secondaryIntents : Option (List SecondaryIntent)
  entities : Option (List (PyStr × List PyStr))
deriving Repr, DecidableEq

/-- Embeds `intent_result.dict()`. -/
def Intent.toDict (i : Intent) : IntentDict :=
  ⟨i.primaryIntent.value, i.confidence, some i.secondaryIntents, some i.entities⟩

/-- Embeds `models/chat_message.py` `MessageResponse`, reduced to the fields the
pipeline computes (`message_id`, `conversation_id` and `timestamp` are copied
verbatim from the inbound message and are omitted). -/
structure MessageResponse where
  response : PyStr
  sources : List Source
  intent : IntentDict
  suggestions : List PyStr
deriving Repr, DecidableEq

/-- Embeds `MessageService._create_safety_response` (the reason argument is only
logged, not echoed). -/
def createSafetyResponse : MessageResponse :=
  { response := ("Xin lỗi, tôi không thể cung cấp thông tin cho truy vấn này. "
                 ++ "Vui lòng đặt câu hỏi khác hoặc liên hệ với chuyên gia y tế.").data
    sources := []
    intent := ⟨"unsafe_content".data, mkRat 95 100, none, none⟩
    suggestions := ["Tôi có thể hỏi về triệu chứng của cảm cúm không?".data,
                    "Làm thế nào để duy trì lối sống lành mạnh?".data] }

/-- Embeds `MessageService._handle_emergency`: fixed preamble plus a cardiac- or
stroke-specific tail. -/
def handleEmergency (emergencyType : PyStr) : MessageResponse :=
  let preamble :=
    ("ĐÂY CÓ VẺ LÀ TÌNH HUỐNG KHẨN CẤP. Nếu bạn hoặc người khác đang gặp nguy hiểm, "
     ++ "hãy gọi ngay số cấp cứu 115 hoặc đến cơ sở y tế gần nhất. ").data
  let response :=
    if emergencyType = "cardiac".data then
      preamble ++ "Dấu hiệu đau tim cần được xử lý ngay lập tức bởi chuyên gia y tế.".data
    else if emergencyType = "stroke".data then
      preamble ++ "Dấu hiệu đột quỵ cần được xử lý trong vòng vài giờ để giảm thiểu tổn thương não.".data
    else preamble
  { response := response
    sources := []
    intent := ⟨"emergency".data, mkRat 98 100, none, none⟩
    suggestions := ["Làm thế nào để nhận biết dấu hiệu đau tim?".data,
                    "Cách sơ cứu khi có người bị ngất?".data] }

/-- The `service_responses` lookup of `MessageService._create_redirect_response`
(with the f-string default for an unknown service). -/
def redirectResponseText (service : PyStr) : PyStr :=
  if service = "location".data then
    ("Tôi thấy bạn đang tìm kiếm cơ sở y tế. "
     ++ "Đang kết nối bạn với dịch vụ tìm kiếm vị trí để hỗ trợ tốt nhất...").data
  else if service = "streak".data then
    ("Tôi thấy bạn quan tâm đến thử thách sức khỏe hàng ngày. "
     ++ "Đang kết nối bạn với dịch vụ Streak Challenge...").data
  else if service = "emergency".data then
    ("ĐÂY CÓ VẺ LÀ TÌNH HUỐNG KHẨN CẤP. "
     ++ "Đang kết nối bạn với dịch vụ hỗ trợ khẩn cấp...").data
  else
    "Đang chuyển tiếp yêu cầu của bạn đến dịch vụ ".data ++ service ++ "...".data

/-- Embeds `MessageService._get_intent_suggestions`. -/
def getIntentSuggestions (intentType : IntentType) : List PyStr :=
  match intentType with
  | .locationSearch =>
      ["Tìm bệnh viện gần nhất".data, "Có nhà thuốc nào gần đây không?".data,
       "Tôi cần tìm phòng khám nhi".data]
  | .streakChallenge =>
      ["Thử thách hôm nay là gì?".data,
       "Tôi đã hoàn thành streak được bao nhiêu ngày?".data,
       "Gợi ý bài tập cho tôi".data]
  | .emergency =>
      ["Cách sơ cứu khi bị bỏng".data, "Triệu chứng đau tim".data,
       "Xử lý khi bị ngất".data]
  | .generalChat =>
      ["Làm thế nào để duy trì lối sống lành mạnh?".data,
       "Cho tôi biết về CareBot".data,
       "Tôi nên uống bao nhiêu nước mỗi ngày?".data]
  | _ =>
      ["Tôi có thể hỏi về triệu chứng của cảm cúm không?".data,
       "Làm thế nào để duy trì lối sống lành mạnh?".data,
       "Tìm bệnh viện gần nhất".data]

/-- Embeds `MessageService._create_redirect_response`. -/
def createRedirectResponse (intent : Intent) (service : PyStr) : MessageResponse :=
  { response := redirectResponseText service
    sources := []
    intent := intent.toDict
    suggestions := getIntentSuggestions intent.primaryIntent }

/-- Environment of one `MessageService.process_message` run: the configured
maximum risk level, the classifier's backend outcomes, and oracles for the
external collaborators.  `processQuery` models `MessageProcessor.process`
abstractly (it is a pure normaliser built on Python's Unicode-aware `\w`
character class, whose tables are out of scope; the pipeline only forwards
its output to retrieval).  `searchDocs` is the (always successful, see
`vdbSearch`) vector-search result for a query, `llmCompletion` the completion
text for a prompt, and `suggestedQuestions` the outcome of the
randomness-driven `SuggestionGenerator.generate_suggestions`. -/
structure MsgEnv where
  maxRiskLevel : Int
  intentEnv : IntentEnv
  processQuery : PyStr → PyStr
  searchDocs : PyStr → List RetrievedDoc
  llmCompletion : PyStr → PyStr
  suggestedQuestions : List PyStr

/-- Embeds `MessageService.process_message`: input-safety gate, intent
classification, the emergency and redirect branches, then retrieval,
completion, output-safety gate, disclaimer, citation, suggestions and
formatting.  The returned event list records every LLM completion request,
vector search and tool execution, in order.  `EmergencyDetector` is never
consulted.  The result is `Except` because the formatting step raises (see
`removeNumericReferences`). -/
def processMessage (env : MsgEnv) (content : PyStr)
    (conversationHistory : Option (List ChatMsg)) :
    Except PyError MessageResponse × List Ev :=
  let verdict := checkInputSafety env.maxRiskLevel content
  if verdict.isSafe = false then
    (.ok createSafetyResponse, [])
  else
    let (intentResponse, classifyEv) := classify env.intentEnv content
    let intentResult := intentResponse.intent
    if intentResult.primaryIntent = .emergency then
      let emergencyType :=
        match intentResult.entities.find? (fun p => decide (p.1 = "emergency_type".data)) with
        | some (_, e :: _) => e
        | _ => "general".data
      (.ok (handleEmergency emergencyType), classifyEv)
    else if intentResult.primaryIntent ≠ .medicalQuery
         ∧ intentResult.primaryIntent ≠ .generalChat
         ∧ intentResponse.redirectService.isSome then
      (.ok (createRedirectResponse intentResult
              (intentResponse.redirectService.getD [])), classifyEv)
    else
      let processedQuery := env.processQuery content
      let relevantDocs := env.searchDocs processedQuery
      let prompt := buildPrompt processedQuery relevantDocs conversationHistory
      let rawResponse := env.llmCompletion prompt
      let tailEv := classifyEv ++ [Ev.vectorSearch, Ev.llm "complete"]
      let outVerdict := checkOutputSafety rawResponse
      if outVerdict.isSafe = false then
        (.ok createSafetyResponse, tailEv)
      else
        let withDisclaimer :=
          addMedicalDisclaimer rawResponse (max verdict.riskLevel outVerdict.riskLevel)
        let sources := extractSources withDisclaimer relevantDocs
        let suggestions := env.suggestedQuestions
        match formatResponse withDisclaimer sources with
        | .error e => (.error e, tailEv)
        | .ok formatted =>
            (.ok { response := formatted, sources := sources
                   intent := intentResult.toDict, suggestions := suggestions },
             tailEv)

/-! ## `services/rag.py` — `RAGService` -/

/-- Python index normalisation for slicing `s[i:j]`: negative indices count
from the end (clamped at 0), positive ones are clamped at the length. -/
def pyNormIdx (n : Nat) (i : Int) : Nat :=
  if i < 0 then ((n : Int) + i).toNat else min i.toNat n

/-- Python slice `s[i:j]` for integer bounds. -/
def pySlice (s : PyStr) (i j : Int) : PyStr :=
  (s.take (pyNormIdx s.length j)).drop (pyNormIdx s.length i)

/-- Python indexing `s[i]`: negative indices count from the end; out-of-range
access is an `IndexError`, modelled as `none`. -/
def pyIndex (s : PyStr) (i : Int) : Option Char :=
  let k := if i < 0 then (s.length : Int) + i else i
  if 0 ≤ k ∧ k < (s.length : Int) then s[k.toNat]? else none

/-- The sentence-ending characters `['.', '!', '?', '\n']` of
`RAGService.chunk_document`. -/
def sentenceEndChars : List Char := ['.', '!', '?', '\n']

/-- The scan `for i in range(end, max(end - 100, start), -1)` inside
`RAGService.chunk_document`, stepping `i` downward and returning the first
`i` whose preceding character `document_text[i-1]` is sentence-ending.
`steps` is the size of the Python range.  (In the states reachable from the
default parameters the index is always in range, so the `none` of `pyIndex`
— Python's `IndexError` — never decides the outcome.) -/
def scanBack (text : PyStr) : Nat → Int → Option Int
  | 0, _ => none
  | steps + 1, i =>
      if (pyIndex text (i - 1)).any (fun c => sentenceEndChars.contains c) then some i
      else scanBack text steps (i - 1)

/-- The adjusted chunk end of `RAGService.chunk_document`: the boundary found
by the downward scan, or the unadjusted end. -/
def adjustEnd (text : PyStr) (start endIdx : Int) : Int :=
  match scanBack text (endIdx - max (endIdx - 100) start).toNat endIdx with
  | some i => i
  | none => endIdx

/-- The `while start < len(document_text)` loop of
`RAGService.chunk_document`, with explicit fuel.  Each iteration appends
`document_text[start:end]` and continues from `end - overlap`; `none` means
the fuel ran out, so a run whose value is `none` for every fuel is a
non-terminating run of the Python loop. -/
def chunkLoop (text : PyStr) (chunkSize overlap : Int) :
    Nat → Int → List PyStr → Option (List PyStr)
  | 0, _, _ => none
  | fuel + 1, start, chunks =>
      if start < (text.length : Int) then
        let endIdx0 := min (start + chunkSize) (text.length : Int)
        let endIdx :=
          if endIdx0 < (text.length : Int) then adjustEnd text start endIdx0 else endIdx0
        chunkLoop text chunkSize overlap fuel (endIdx - overlap)
          (chunks ++ [pySlice text start endIdx])
      else
        some chunks

/-- Embeds `RAGService.chunk_document` (defaults `chunk_size=500`, `overlap=100`),
with explicit fuel for its `while` loop. -/
def chunkDocument (fuel : Nat) (documentText : PyStr) (chunkSize overlap : Int) :
    Option (List PyStr) :=
  chunkLoop documentText chunkSize overlap fuel 0 []

/-- A persistence operation performed by `RAGService.index_document` against
`DocumentChunkRepository`. -/
inductive StoreOp where
  | deleteChunks (documentId : Int)
  | createChunk (documentId : Int) (content : PyStr) (chunkNumber : Nat)
      (embedding : List ℚ)
deriving Repr, DecidableEq

/-- Embeds `RAGService.index_document`.  In the source both the
`delete_chunks_by_document_id` call and the `chunk_document` call are
commented out: the chunk list is literally `[document_text]`, each chunk is
embedded by the external `embedding_service.create_embeddings` (the oracle
`embedSvc`), and `enumerate(zip(chunks, embeddings))` drives the stores. -/
def indexDocument (embedSvc : List PyStr → List (List ℚ)) (documentId : Int)
    (documentText : PyStr) : List StoreOp :=
  let chunks := [documentText]
  let embeddings := embedSvc chunks
  ((chunks.zip embeddings).enum).map (fun p =>
    StoreOp.createChunk documentId p.2.1 p.1 p.2.2)

/-! ## `services/vector_db_manager.py` — `VectorDatabaseManager` -/

/-- Backend state of one `VectorDatabaseManager.search` call:
`collectionAvailable` is whether the Chroma collection handle exists after
`_init_collection` (including the in-call retry), and `queryOutcome` is the
outcome of `collection.query` for a query — the result rows already reshaped
into `{content, metadata, score}` records, or the message of the exception
the client raised (network, auth and rate-limit failures included). -/
structure VdbEnv where
  collectionAvailable : Bool
  queryOutcome : PyStr → Except String (List RetrievedDoc)

/-- Embeds `VectorDatabaseManager.search`.  The result is an `Except` so that an
escaping exception would be visible as `.error` — but the code returns `[]`
when the collection is unavailable and its `except Exception` handler also
returns `[]`, so every branch is `.ok`. -/
def vdbSearch (env : VdbEnv) (query : PyStr) : Except String (List RetrievedDoc) :=
  if env.collectionAvailable = false then .ok []
  else
    match env.queryOutcome query with
    | .error _ => .ok []
    | .ok docs => .ok docs

/-! ## `services/llm.py` — `LLMService.generate_response` -/

/-- One part of a Gemini response candidate: optionally a function call with
its name and JSON-encoded arguments. -/
structure GeminiPart where
  functionCall : Option (String × String)
deriving Repr, DecidableEq

/-- One `model.generate_content` response: its text and the parts of its
first candidate. -/
structure GeminiResponse where
  text : PyStr
  parts : List GeminiPart
deriving Repr, DecidableEq

/-- Outcome of `LLMService._execute_tool_call` for one tool call: the value
the tool returned, or the message of the exception the execution raised
(unknown tool names and malformed JSON arguments raise too and are caught by
the same handler). -/
inductive ToolOutcome where
  | value (v : String)
  | failure (msg : String)
deriving Repr, DecidableEq

/-- The `tool_call_data` dictionary built for each function call. -/
structure ToolCallData where
  id : String
  name : String
  arguments : String
deriving Repr, DecidableEq

/-- The `tool_result` dictionary built for each executed tool call. -/
structure ToolResultData where
  toolCallId : String
  functionName : String
  outcome : ToolOutcome
deriving Repr, DecidableEq

/-- One entry of `result["conversation_turns"]`. -/
structure TurnInfo where
  turn : Nat
  content : PyStr
  toolCalls : List ToolCallData
  toolResults : List ToolResultData
deriving Repr, DecidableEq

/-- The dictionary returned by `LLMService.generate_response`. -/
structure GenerateResult where
  content : PyStr
  conversationTurns : List TurnInfo
  finalContent : PyStr
deriving Repr, DecidableEq

/-- Embeds the `has_tool_calls` scan over the candidate parts: true when a
Gemini response carries at least one function call. -/
def hasToolCalls (r : GeminiResponse) : Bool :=
  r.parts.any (fun p => p.functionCall.isSome)

/-- The per-turn iteration over the candidate parts of the Gemini branch:
each function-call part yields a `tool_call_data` with correlation id
`call_{turn_number}_{idx}` (where `idx` is the running count of calls in this
turn), is executed immediately (success or caught failure), and its result —
carrying the same correlation id — is appended to the conversation before
the iteration continues.  Returns the accumulated calls, results and tool
events. -/
def processParts (execTool : String → String → ToolOutcome) (turnNumber : Nat) :
    List GeminiPart → Nat → List ToolCallData × List ToolResultData × List Ev
  | [], _ => ([], [], [])
  | p :: rest, idx =>
      match p.functionCall with
      | none => processParts execTool turnNumber rest idx
      | some (name, args) =>
          let id := "call_" ++ toString turnNumber ++ "_" ++ toString idx
          let outcome := execTool name args
          let (cs, rs, evs) := processParts execTool turnNumber rest (idx + 1)
          (⟨id, name, args⟩ :: cs, ⟨id, name, outcome⟩ :: rs, Ev.toolExec id :: evs)

/-- Embeds `MAX_TOOL_CALLS` from `services/llm.py`. -/
def maxToolCalls : Nat := 5

/-- The `while has_tool_calls and turn_number <= MAX_TOOL_CALLS` loop of the
Gemini branch: process and execute this turn's tool calls, record the turn,
issue the follow-up `generate_content` (the oracle `llmStep`, indexed by the
number of completions already made), and continue with the follow-up
response; the text of the last response obtained is `final_content`.  Fuel 6
covers the turn ceiling. -/
def geminiLoop (llmStep : Nat → GeminiResponse)
    (execTool : String → String → ToolOutcome) :
    Nat → Nat → Nat → GeminiResponse → List TurnInfo × PyStr × List Ev
  | 0, _, _, response => ([], response.text, [])
  | fuel + 1, turnNumber, callCount, response =>
      if hasToolCalls response ∧ turnNumber ≤ maxToolCalls then
        let (toolCalls, toolResults, toolEv) :=
          processParts execTool turnNumber response.parts 0
        if toolCalls.isEmpty then ([], response.text, [])
        else
          let turnInfo : TurnInfo := ⟨turnNumber, response.text, toolCalls, toolResults⟩
          let followUp := llmStep callCount
          let (restTurns, finalText, restEv) :=
            geminiLoop llmStep execTool fuel (turnNumber + 1) (callCount + 1) followUp
          (turnInfo :: restTurns, finalText,
           toolEv ++ [Ev.llm "generate_content"] ++ restEv)
      else ([], response.text, [])

/-- The Gemini branch of `LLMService.generate_response`: initial completion,
then the tool-calling loop.  `llmStep n` is the oracle response of the
`n`-th `generate_content` request (the initial request is `llmStep 0`). -/
def generateResponseGemini (llmStep : Nat → GeminiResponse)
    (execTool : String → String → ToolOutcome) (executeTools : Bool) :
    GenerateResult × List Ev :=
  let response := llmStep 0
  let (turns, finalText, loopEv) :=
    if executeTools then geminiLoop llmStep execTool 6 1 1 response
    else ([], response.text, [])
  ({ content := response.text, conversationTurns := turns, finalContent := finalText },
   [Ev.llm "generate_content"] ++ loopEv)

/-- The OpenAI branch of `LLMService.generate_response` reads
`formatted_messages` before any assignment to it (the
`self._format_openai_messages(...)` call is missing from the branch, only
its comment remains), so the branch raises `UnboundLocalError` before its
first completion request; no event is ever emitted. -/
def generateResponseOpenai (_messages : List ChatMsg) (_context : Option PyStr) :
    Except PyError (GenerateResult × List Ev) :=
  .error (.nameError "formatted_messages")

/-! ## Helper lemmas -/

/-- A list that is a prefix of `List.replicate n a` consists of copies of `a`. -/
theorem all_eq_of_isPrefixOf_replicate {a : Char} :
    ∀ (l : List Char) (n : Nat), l.isPrefixOf (List.replicate n a) = true →
      ∀ c ∈ l, c = a := by
  intro l
  induction l with
  | nil => intro n _ c hc; cases hc
  | cons x t ih =>
      intro n hpre c hc
      cases n with
      | zero => simp [List.isPrefixOf] at hpre
      | succ m =>
          rw [List.replicate_succ, List.isPrefixOf] at hpre
          have hx : x = a := by
            have := (Bool.and_eq_true _ _).mp hpre |>.1
            exact eq_of_beq this
          rcases List.mem_cons.mp hc with hc | hc
          · exact hc.trans hx
          · exact ih m ((Bool.and_eq_true _ _).mp hpre |>.2) c hc

/-- A needle containing a character different from `a` never occurs inside
`List.replicate n a`. -/
theorem pyContains_replicate_eq_false {a : Char} (needle : List Char)
    (h : needle.any (fun c => decide (c ≠ a)) = true) :
    ∀ n, pyContains (List.replicate n a) needle = false := by
  obtain ⟨c, hc, hne⟩ := List.any_eq_true.mp h
  have hne : c ≠ a := of_decide_eq_true hne
  intro n
  induction n with
  | zero =>
      cases needle with
      | nil => cases hc
      | cons x t => rfl
  | succ m ih =>
      rw [List.replicate_succ]
      show (needle.isPrefixOf (a :: List.replicate m a)
            || pyContains (List.replicate m a) needle) = false
      have hpre : needle.isPrefixOf (a :: List.replicate m a) = false := by
        cases hp : needle.isPrefixOf (a :: List.replicate m a) with
        | false => rfl
        | true =>
            have hall := all_eq_of_isPrefixOf_replicate needle (m + 1)
              (by rw [List.replicate_succ]; exact hp) c hc
            exact absurd hall hne
      simp [hpre, ih]

/-- The loop of `chunk_document`, once it reaches the state `start = 50` on a
150-character text (chunk size 500, overlap 100), returns to the very same
start index after every iteration: `end = min(50+500, 150) = 150` is not less
than the length, so no boundary scan runs, and the next start is
`150 - 100 = 50`.  Hence no amount of fuel lets it finish. -/
theorem chunkLoop_replicate150_stuck :
    ∀ (fuel : Nat) (chunks : List PyStr),
      chunkLoop (List.replicate 150 'a') 500 100 fuel 50 chunks = none := by
  intro fuel
  induction fuel with
  | zero => intro chunks; rfl
  | succ n ih =>
      intro chunks
      rw [chunkLoop]
      norm_num [List.length_replicate]
      exact ih _

/-- One `extract_sources` fold step preserves the two dedup invariants:
pairwise distinct urls (as optional values), and equal titles only when the
later title is the default one. -/
theorem sourceStep_ok (acc : List Source) (d : RetrievedDoc)
    (h : acc.Pairwise (fun a b => a.url ≠ b.url) ∧
         acc.Pairwise (fun a b => a.title = b.title → b.title = defaultSourceTitle)) :
    (sourceStep acc d).Pairwise (fun a b => a.url ≠ b.url) ∧
    (sourceStep acc d).Pairwise (fun a b => a.title = b.title → b.title = defaultSourceTitle) := by
  unfold sourceStep
  cases hdup : isDuplicateSource acc d.title d.url with
  | true => simpa using h
  | false =>
      simp only [isDuplicateSource, List.any_eq_false] at hdup
      have hconds : ∀ s ∈ acc, ¬(some s.title = d.title) ∧ ¬(s.url = d.url) := by
        intro s hs
        rcases Bool.or_eq_false_iff.mp (Bool.eq_false_iff.mpr (hdup s hs)) with ⟨h1, h2⟩
        exact ⟨of_decide_eq_false h1, of_decide_eq_false h2⟩
      rw [if_neg Bool.false_ne_true]
      constructor
      · rw [List.pairwise_append]
        refine ⟨h.1, List.pairwise_singleton _ _, ?_⟩
        intro a ha b hb
        have hb : b = { title := d.title.getD defaultSourceTitle, url := d.url
                        description := some (d.description.getD (createSnippet d.content 100))
                        publicationYear := d.publicationYear } := by simpa using hb
        subst hb
        exact (hconds a ha).2
      · rw [List.pairwise_append]
        refine ⟨h.2, List.pairwise_singleton _ _, ?_⟩
        intro a ha b hb
        have hb : b = { title := d.title.getD defaultSourceTitle, url := d.url
                        description := some (d.description.getD (createSnippet d.content 100))
                        publicationYear := d.publicationYear } := by simpa using hb
        subst hb
        cases hd : d.title with
        | none => intro _; simp [hd]
        | some t =>
            intro hteq
            exfalso
            exact (hconds a ha).1 (by rw [hd]; exact congrArg some (by simpa [hd] using hteq))

/-- The `extract_sources` fold preserves the dedup invariants. -/
theorem foldl_sourceStep_ok :
    ∀ (ds : List RetrievedDoc) (acc : List Source),
      acc.Pairwise (fun a b => a.url ≠ b.url) ∧
      acc.Pairwise (fun a b => a.title = b.title → b.title = defaultSourceTitle) →
      (ds.foldl sourceStep acc).Pairwise (fun a b => a.url ≠ b.url) ∧
      (ds.foldl sourceStep acc).Pairwise
        (fun a b => a.title = b.title → b.title = defaultSourceTitle) := by
  intro ds
  induction ds with
  | nil => intro acc h; exact h
  | cons d rest ih => intro acc h; exact ih _ (sourceStep_ok acc d h)

/-! ## Claim theorems -/

/-- C3: `format_response` is claimed to return the text with bracketed
numeric reference markers removed and the citation block appended exactly
when sources exist.  The code instead raises `NameError` on every input:
`response_formatter.py` calls `re.sub` without importing `re`.  The first
conjunct evaluates the code at the failing input (a text with a `[1]`
marker and no sources); the second shows the failure is universal. -/
theorem formatResponse_always_raises :
    formatResponse "Triệu chứng cảm cúm [1] thường nhẹ.".data [] = .error (.nameError "re") ∧
    (∀ (content : PyStr) (sources : List Source),
      formatResponse content sources = .error (.nameError "re")) :=
  ⟨rfl, fun _ _ => rfl⟩

/-- C4: `index_document` is claimed to delete existing chunks for the
document id and split the text into overlapping chunks, storing more than
one chunk for a long text.  In the code both the delete call and the
`chunk_document` call are commented out: whenever the embedding service
returns one embedding for the single-element chunk list (its contract), the
stored operations are exactly one `create_chunk` holding the whole text as
chunk 0 — no delete ever happens and no text is ever split. -/
theorem indexDocument_stores_single_chunk_without_delete
    (embedSvc : List PyStr → List (List ℚ)) (documentId : Int)
    (documentText : PyStr) (e : List ℚ)
    (h : embedSvc [documentText] = [e]) :
    indexDocument embedSvc documentId documentText
      = [StoreOp.createChunk documentId documentText 0 e] := by
  simp [indexDocument, h]

/-- Witness for `indexDocument_stores_single_chunk_without_delete`: a
2000-character text (four times the 500-character chunk target) is stored as
exactly one chunk, with no delete operation. -/
theorem indexDocument_stores_single_chunk_without_delete_witness :
    (List.replicate 2000 'a').length = 2000 ∧
    indexDocument (fun chunks => chunks.map (fun _ => [0])) 7 (List.replicate 2000 'a')
      = [StoreOp.createChunk 7 (List.replicate 2000 'a') 0 [0]] :=
  ⟨List.length_replicate 2000 'a',
   indexDocument_stores_single_chunk_without_delete _ 7 _ [0] rfl⟩

/-- C5: `chunk_document` is claimed to produce a finite chunk list whose
de-overlapped concatenation reconstructs the text.  On a 150-character text
(with the default chunk size 500 and overlap 100) the `while` loop never
terminates — after the first iteration the start index is stuck at 50 — so
no fuel suffices and the Python call never returns any list at all. -/
theorem chunkDocument_never_terminates :
    ∀ fuel : Nat, chunkDocument fuel (List.replicate 150 'a') 500 100 = none := by
  intro fuel
  cases fuel with
  | zero => rfl
  | succ n =>
      rw [chunkDocument, chunkLoop]
      norm_num [List.length_replicate]
      exact chunkLoop_replicate150_stuck n _

/-- C10: a failure raised by the vector-search backend is claimed to
propagate out of `search` as an exception.  The code's `except Exception`
handler instead converts it into the normal empty result `[]`: with a
backend whose query raises a connection error, `search` returns `.ok []`
rather than an error. -/
theorem vdbSearch_counterexample :
    (VdbEnv.queryOutcome ⟨true, fun _ => .error "ConnectionError: vector database unreachable"⟩)
        "đau đầu".data = .error "ConnectionError: vector database unreachable" ∧
    vdbSearch ⟨true, fun _ => .error "ConnectionError: vector database unreachable"⟩
        "đau đầu".data = .ok [] :=
  ⟨rfl, rfl⟩

/-- C10 (amended): when the vector-search backend raises during `search`,
the failure does not propagate — `search` swallows the exception and returns
the normal empty result list `[]` (as it also does when the collection is
unavailable), so the pipeline proceeds with empty retrieval context. -/
theorem vdbSearch_swallows_backend_failure (env : VdbEnv) (query : PyStr)
    (e : String) (h : env.queryOutcome query = .error e) :
    vdbSearch env query = .ok [] := by
  unfold vdbSearch
  cases hc : env.collectionAvailable <;> simp [hc, h]

/-- Witness for `vdbSearch_swallows_backend_failure` at a concrete raising
backend. -/
theorem vdbSearch_swallows_backend_failure_witness :
    vdbSearch ⟨true, fun _ => .error "RateLimitError"⟩ "sốt cao".data = .ok [] :=
  vdbSearch_swallows_backend_failure _ _ "RateLimitError" rfl

/-- C9: the over-length rejection is claimed unconditional (`is_safe=False`,
`risk_level=2` for any content beyond 2000 characters, whatever the
configured maximum risk level and whatever else the content holds).  The
keyword loop runs first: a 2005-character content starting with the
high-risk keyword `tự tử` is rejected at risk level 4 — not 2 — under the
default maximum risk level 3, and is even accepted (`is_safe=True`) when the
maximum risk level is configured to 4. -/
theorem checkInputSafety_length_cap_counterexample :
    2000 < ("tự tử".data ++ List.replicate 2000 'a').length ∧
    checkInputSafety 3 ("tự tử".data ++ List.replicate 2000 'a')
      = ⟨false, 4, "Nội dung chứa từ khóa có rủi ro cao: tự tử".data⟩ ∧
    (checkInputSafety 4 ("tự tử".data ++ List.replicate 2000 'a')).isSafe = true := by
  refine ⟨?_, rfl, rfl⟩
  rw [List.length_append, List.length_replicate]
  norm_num

/-- C9 (amended): for content longer than 2000 characters **that contains no
configured high-risk keyword**, `check_input_safety` rejects with
`risk_level=2` regardless of the configured maximum risk level (the
dangerous-request regex is not even consulted). -/
theorem checkInputSafety_length_cap_no_keyword (maxRiskLevel : Int) (content : PyStr)
    (hkw : ∀ kw ∈ highRiskKeywords, pyContains (pyLower content) kw = false)
    (hlen : 2000 < content.length) :
    checkInputSafety maxRiskLevel content
      = ⟨false, 2, "Nội dung vượt quá độ dài cho phép".data⟩ := by
  unfold checkInputSafety
  have hfind : highRiskKeywords.find? (fun kw => pyContains (pyLower content) kw) = none :=
    List.find?_eq_none.mpr (fun kw hmem => by simp [hkw kw hmem])
  have hlen2 : 2000 < (pyLower content).length := by
    simpa [pyLower] using hlen
  simp only [hfind]
  rw [if_pos hlen2]

/-- Witness for `checkInputSafety_length_cap_no_keyword`: 2001 letters `a`
(no keyword occurs) are rejected at risk level 2. -/
theorem checkInputSafety_length_cap_no_keyword_witness :
    checkInputSafety 3 (List.replicate 2001 'a')
      = ⟨false, 2, "Nội dung vượt quá độ dài cho phép".data⟩ := by
  have hrep : pyLower (List.replicate 2001 'a') = List.replicate 2001 'a' := by
    unfold pyLower
    rw [List.map_replicate, (by decide : Char.toLower 'a' = 'a')]
  have hany : ∀ kw ∈ highRiskKeywords, kw.any (fun c => decide (c ≠ 'a')) = true := by
    decide
  refine checkInputSafety_length_cap_no_keyword 3 _ ?_ ?_
  · intro kw hkw
    rw [hrep]
    exact pyContains_replicate_eq_false kw (hany kw hkw) 2001
  · rw [List.length_replicate]; norm_num

/-- C8: `extract_sources` is claimed never to return two sources with equal
title, including titles filled in by the default.  Two retrieved docs whose
metadata has no title but distinct urls (score 0.8) both receive the default
title `Tài liệu y tế`, so the result contains two sources with equal
titles. -/
theorem extractSources_default_title_duplicate :
    (extractSources []
      [⟨[], none, some "https://a.vn".data, none, none, mkRat 4 5⟩,
       ⟨[], none, some "https://b.vn".data, none, none, mkRat 4 5⟩]).map Source.title
      = [defaultSourceTitle, defaultSourceTitle] := by
  rfl

/-- C8 (amended): `extract_sources` returns at most 5 sources, never two
sources with equal url (`None` included, so in particular never two equal
non-null urls), and never two sources with equal title **except** that the
title of the later of the two is the default `Tài liệu y tế` (filled in when
its doc's metadata lacked a title, since deduplication compares existing
titles against the incoming metadata title, not the defaulted one). -/
theorem extractSources_card_and_dedup (content : PyStr) (docs : List RetrievedDoc) :
    (extractSources content docs).length ≤ 5 ∧
    (extractSources content docs).Pairwise (fun a b => a.url ≠ b.url) ∧
    (extractSources content docs).Pairwise
      (fun a b => a.title = b.title → b.title = defaultSourceTitle) := by
  have h := foldl_sourceStep_ok (docs.filter (fun d => d.score > mkRat 7 10)) []
    ⟨List.Pairwise.nil, List.Pairwise.nil⟩
  have hsub := List.take_sublist 5
    ((docs.filter (fun d => d.score > mkRat 7 10)).foldl sourceStep [])
  refine ⟨?_, ?_, ?_⟩
  · show (extractSources content docs).length ≤ 5
    unfold extractSources
    rw [List.length_take]
    exact min_le_left 5 _
  · show (extractSources content docs).Pairwise _
    unfold extractSources
    exact h.1.sublist hsub
  · show (extractSources content docs).Pairwise _
    unfold extractSources
    exact h.2.sublist hsub

/-- C7: the confidence in a returned `Intent` is claimed to lie in `[0,1]`
regardless of what the confidence-scoring sub-call returns.
`_get_confidence_score` returns `float(reply.strip())` without any clamping
and `Intent.confidence` carries no range constraint: a backend reply parsing
to `1.5` appears verbatim in the result, outside `[0,1]`. -/
theorem classify_confidence_above_one :
    (classify ⟨"medical_query".data, some [], some (mkRat 3 2), none⟩
        "tác dụng phụ của thuốc".data).1.intent.confidence = mkRat 3 2 ∧
    ¬((classify ⟨"medical_query".data, some [], some (mkRat 3 2), none⟩
        "tác dụng phụ của thuốc".data).1.intent.confidence ≤ 1) := by
  constructor
  · rfl
  · intro hle
    have : (mkRat 3 2 : ℚ) ≤ 1 := by
      calc (mkRat 3 2 : ℚ) = (classify ⟨"medical_query".data, some [], some (mkRat 3 2), none⟩
          "tác dụng phụ của thuốc".data).1.intent.confidence := by rfl
        _ ≤ 1 := hle
    norm_num [Rat.mkRat_eq_div] at this

/-- C7 (amended): the confidence in the returned `Intent` is exactly the
value the confidence sub-call's reply parsed to — forwarded unclamped, so an
out-of-range backend value appears in the result — and only when that
sub-call raises or fails to parse does it default to `0.7`. -/
theorem classify_confidence_is_raw_backend_value (env : IntentEnv) (message : PyStr) :
    (classify env message).1.intent.confidence = env.confidenceResult.getD (mkRat 7 10) := by
  unfold classify getConfidenceScore extractEntities getSecondaryIntent
  repeat' split
  all_goals simp_all

/-- C2: whenever `check_input_safety` rejects, `process_message` returns the
fixed safety response — empty sources, primary intent `unsafe_content` — and
performs no LLM call, no vector search and no tool execution (the event
trace is empty: the classifier is never even consulted). -/
theorem processMessage_unsafe_no_calls (env : MsgEnv) (content : PyStr)
    (history : Option (List ChatMsg))
    (h : (checkInputSafety env.maxRiskLevel content).isSafe = false) :
    processMessage env content history = (.ok createSafetyResponse, []) ∧
    createSafetyResponse.sources = [] ∧
    createSafetyResponse.intent.primaryIntent = "unsafe_content".data := by
  refine ⟨?_, rfl, rfl⟩
  unfold processMessage
  simp only [h]
  rw [if_pos trivial]

/-- Witness for `processMessage_unsafe_no_calls`: the message `tự tử`
(high-risk keyword, risk 4 above the default maximum 3) yields the safety
response with an empty event trace. -/
theorem processMessage_unsafe_no_calls_witness :
    processMessage ⟨3, ⟨[], none, none, none⟩, id, fun _ => [], fun _ => [], []⟩
        "tự tử".data none = (.ok createSafetyResponse, []) ∧
    createSafetyResponse.sources = [] ∧
    createSafetyResponse.intent.primaryIntent = "unsafe_content".data :=
  processMessage_unsafe_no_calls _ _ none (by decide)

/-- C1: emergency precedence.  The claim requires `process_message` to answer
any emergency-matching, safety-passing message with primary intent
`emergency`, decided independently of `IntentClassifier` and before any LLM
or retrieval call.  The code never invokes `EmergencyDetector` (the injected
detector is unused, although the repository's own pipeline test asserts
`detect_emergency.assert_called_once()`): the emergency branch is driven by
the LLM-backed classifier.  For the message `tôi bị đau tim` — which
`detect_emergency` classifies as a `cardiac` emergency and which passes the
input-safety gate — a classifier backend answering `general_chat` sends the
pipeline through two classification LLM calls, a vector search and a
completion call, and no emergency response is ever produced (the run ends in
the formatter's `NameError`). -/
theorem processMessage_bypasses_emergency_detector :
    detectEmergency "tôi bị đau tim".data = (true, "cardiac".data) ∧
    (checkInputSafety 3 "tôi bị đau tim".data).isSafe = true ∧
    processMessage ⟨3, ⟨"general_chat".data, none, some (mkRat 19 20), none⟩, id,
        fun _ => [], fun _ => "Xin chào!".data, []⟩ "tôi bị đau tim".data none
      = (.error (.nameError "re"),
         [Ev.llm "intent_primary", Ev.llm "intent_confidence",
          Ev.vectorSearch, Ev.llm "complete"]) := by
  refine ⟨by decide, by decide, ?_⟩
  rfl

/-- The per-turn part iteration produces results whose correlation ids are
exactly the ids of the emitted tool calls, in order, and one tool event per
call. -/
theorem processParts_spec (execTool : String → String → ToolOutcome) (turnNumber : Nat) :
    ∀ (parts : List GeminiPart) (idx : Nat),
      (processParts execTool turnNumber parts idx).2.1.map ToolResultData.toolCallId
        = (processParts execTool turnNumber parts idx).1.map ToolCallData.id ∧
      (processParts execTool turnNumber parts idx).2.2
        = (processParts execTool turnNumber parts idx).1.map (fun c => Ev.toolExec c.id) := by
  intro parts
  induction parts with
  | nil => intro idx; exact ⟨rfl, rfl⟩
  | cons p rest ih =>
      intro idx
      cases hp : p.functionCall with
      | none => simpa [processParts, hp] using ih idx
      | some nc =>
          obtain ⟨name, args⟩ := nc
          rcases hrec : processParts execTool turnNumber rest (idx + 1) with ⟨cs, rs, evs⟩
          have h := ih (idx + 1)
          rw [hrec] at h
          dsimp only at h
          simp [processParts, hp, hrec, h.1, h.2]

/-- Loop invariant of the Gemini tool-calling loop: every recorded turn's
tool results correlate one-to-one (by id, in order) with its tool calls, and
the event trace is exactly, for each turn, the turn's tool executions
followed by the follow-up completion request. -/
theorem geminiLoop_spec (llmStep : Nat → GeminiResponse)
    (execTool : String → String → ToolOutcome) :
    ∀ (fuel turnNumber callCount : Nat) (response : GeminiResponse),
      (∀ t ∈ (geminiLoop llmStep execTool fuel turnNumber callCount response).1,
          t.toolResults.map ToolResultData.toolCallId = t.toolCalls.map ToolCallData.id) ∧
      (geminiLoop llmStep execTool fuel turnNumber callCount response).2.2
        = ((geminiLoop llmStep execTool fuel turnNumber callCount response).1.map
            (fun t => t.toolCalls.map (fun c => Ev.toolExec c.id)
                      ++ [Ev.llm "generate_content"])).flatten := by
  intro fuel
  induction fuel with
  | zero =>
      intro turnNumber callCount response
      exact ⟨fun t ht => absurd ht (List.not_mem_nil t), rfl⟩
  | succ n ih =>
      intro turnNumber callCount response
      unfold geminiLoop
      split
      · rcases hp : processParts execTool turnNumber response.parts 0 with ⟨cs, rs, evs⟩
        have hpp := processParts_spec execTool turnNumber response.parts 0
        rw [hp] at hpp
        dsimp only at hpp
        by_cases hcs : cs.isEmpty
        · simp only [hcs, if_true]
          exact ⟨fun t ht => absurd ht (List.not_mem_nil t), rfl⟩
        · simp only [hcs, if_false, Bool.false_eq_true]
          rcases hrec : geminiLoop llmStep execTool n (turnNumber + 1) (callCount + 1)
              (llmStep callCount) with ⟨ts, ft, tr⟩
          have hI := ih (turnNumber + 1) (callCount + 1) (llmStep callCount)
          rw [hrec] at hI
          dsimp only at hI
          constructor
          · intro t ht
            rcases List.mem_cons.mp ht with rfl | ht
            · simpa using hpp.1
            · exact hI.1 t ht
          · dsimp only
            rw [hpp.2, hI.2]
            simp
      · exact ⟨fun t ht => absurd ht (List.not_mem_nil t), rfl⟩

/-- C6: in every turn of `generate_response` whose LLM response carries tool
calls, each emitted tool call receives exactly one correlated result —
matched by its correlation id, success or caught failure alike — appended
before the turn's follow-up LLM request; none is dropped, none is answered
twice.  This holds for the Gemini branch (the branch that runs): each turn's
recorded results map id-for-id onto its calls, and the event trace is the
initial completion followed, per turn, by that turn's tool executions and
then the next completion.  The OpenAI branch raises `UnboundLocalError`
before its first completion, so it emits no tool call at all. -/
theorem generateResponse_tool_call_closure (llmStep : Nat → GeminiResponse)
    (execTool : String → String → ToolOutcome) (executeTools : Bool) :
    (∀ t ∈ (generateResponseGemini llmStep execTool executeTools).1.conversationTurns,
        t.toolResults.map ToolResultData.toolCallId = t.toolCalls.map ToolCallData.id) ∧
    (generateResponseGemini llmStep execTool executeTools).2
      = Ev.llm "generate_content" ::
        ((generateResponseGemini llmStep execTool executeTools).1.conversationTurns.map
          (fun t => t.toolCalls.map (fun c => Ev.toolExec c.id)
                    ++ [Ev.llm "generate_content"])).flatten ∧
    (∀ (messages : List ChatMsg) (context : Option PyStr),
        generateResponseOpenai messages context = .error (.nameError "formatted_messages")) := by
  unfold generateResponseGemini
  cases executeTools with
  | false =>
      exact ⟨fun t ht => absurd ht (List.not_mem_nil t), rfl, fun _ _ => rfl⟩
  | true =>
      have hspec := geminiLoop_spec llmStep execTool 6 1 1 (llmStep 0)
      rcases hl : geminiLoop llmStep execTool 6 1 1 (llmStep 0) with ⟨ts, ft, tr⟩
      rw [hl] at hspec
      dsimp only at hspec
      simp only [if_true, hl]
      exact ⟨hspec.1, by simp [hspec.2], fun _ _ => rfl⟩

end Carebot
